import Mathlib

/-!
Verification of the OAuth orchestration core of the
admin-support-assistant MCP server (Cloudflare Workers).

The definitions below are a shallow embedding of the TypeScript source:

* `src/workers-oauth-utils.ts` — CSRF guard, one-time OAuth state store,
  session binding, approved-clients cookie;
* `src/utils.ts` — `fetchUpstreamAuthToken` (token exchange);
* `src/oauth-handler.ts` — the `/callback/:provider` merge logic and
  `completeAuthorization` props construction.

Platform primitives (Web Crypto HMAC / SHA-256, `JSON.parse` of typed
payloads) are taken as function parameters of the model; `atob` / `btoa`
(base64), hex formatting, and JavaScript truthiness are modelled
concretely, since their exact behaviour is load-bearing for the claims.
-/

namespace S2P

/-- JavaScript truthiness of a `string | null | undefined` value:
`null`, `undefined` and the empty string are falsy. -/
def jsTruthyO : Option String → Bool
  | none => false
  | some s => s != ""

/-- JavaScript string fallback `a || b` for strings (empty string is falsy). -/
def jsOrS (a b : String) : String := if a = "" then b else a

/-- `Array.from(new Set(l))`: removes duplicates keeping the first
occurrence, preserving insertion order (accumulator-passing worker). -/
def dedupGo (acc : List String) : List String → List String
  | [] => acc
  | x :: xs => dedupGo (if x ∈ acc then acc else acc ++ [x]) xs

/-- `Array.from(new Set(l))` as used for `connectedIntegrations` merging. -/
def jsSetDedup (l : List String) : List String := dedupGo [] l

theorem mem_dedupGo (a : String) : ∀ (l acc : List String), a ∈ dedupGo acc l ↔ a ∈ acc ∨ a ∈ l := by
  intro l
  induction l with
  | nil => intro acc; simp [dedupGo]
  | cons x xs ih =>
    intro acc
    by_cases hx : x ∈ acc
    · simp only [dedupGo, if_pos hx, ih]
      constructor
      · rintro (h | h)
        · exact Or.inl h
        · exact Or.inr (List.mem_cons_of_mem _ h)
      · rintro (h | h)
        · exact Or.inl h
        · rcases List.mem_cons.mp h with h | h
          · exact Or.inl (h ▸ hx)
          · exact Or.inr h
    · simp only [dedupGo, if_neg hx, ih, List.mem_append, List.mem_singleton, List.mem_cons]
      tauto

theorem mem_jsSetDedup (a : String) (l : List String) : a ∈ jsSetDedup l ↔ a ∈ l := by
  simp [jsSetDedup, mem_dedupGo]

/-- The error value raised by the orchestration core
(`class OAuthError` in `workers-oauth-utils.ts`). -/
structure OAuthError where
  code : String
  description : String
  statusCode : Nat
deriving DecidableEq, Repr

/-! ## Key/value store (Cloudflare KV namespace, as used by the state store) -/

/-- The KV namespace, modelled as an association list (most recent put first). -/
def KV := List (String × String)

instance : DecidableEq KV := by unfold KV; infer_instance

/-- `kv.get(k)`. -/
def kvGet (kv : KV) (k : String) : Option String :=
  match kv.find? (fun p => p.1 = k) with
  | some p => some p.2
  | none => none

/-- `kv.put(k, v, ...)` (later `get`s of `k` see `v`). -/
def kvPut (kv : KV) (k v : String) : KV :=
  (k, v) :: kv.filter (fun p => p.1 ≠ k)

/-- `kv.delete(k)`. -/
def kvDelete (kv : KV) (k : String) : KV :=
  kv.filter (fun p => p.1 ≠ k)

theorem kvGet_kvPut (kv : KV) (k v : String) : kvGet (kvPut kv k v) k = some v := by
  simp [kvGet, kvPut, List.find?]

theorem kvGet_kvDelete (kv : KV) (k : String) : kvGet (kvDelete kv k) k = none := by
  unfold KV at kv
  induction kv with
  | nil => rfl
  | cons p rest ih =>
    by_cases hp : p.1 = k
    · simpa [kvDelete, List.filter, hp] using ih
    · simpa [kvDelete, kvGet, List.filter, List.find?, hp] using ih

/-! ## `workers-oauth-utils.ts`: CSRF guard -/

/-- Result of `generateCSRFProtection`. -/
structure CSRFProtectionResult where
  token : String
  setCookie : String
deriving DecidableEq, Repr

/-- Result of `validateCSRFToken`. -/
structure ValidateCSRFResult where
  clearCookie : String
deriving DecidableEq, Repr

/-- `generateCSRFProtection()`: the random `crypto.randomUUID()` is a
parameter of the model. -/
def generateCSRFProtection (uuid : String) : CSRFProtectionResult :=
  { token := uuid
    setCookie := "__Host-CSRF_TOKEN=" ++ uuid ++ "; HttpOnly; Secure; Path=/; SameSite=Lax; Max-Age=600" }

/-- `validateCSRFToken(formData, request)` over the extracted form field
`csrf_token` and the extracted `__Host-CSRF_TOKEN` cookie value
(`null` when absent). Follows the source order: falsy form token, falsy
cookie token, then exact string comparison; success returns the cookie
clearing directive. -/
def validateCSRFTokenCore (formToken cookieToken : Option String) : Except OAuthError ValidateCSRFResult :=
  match formToken with
  | none => .error ⟨"invalid_request", "Missing CSRF token in form data", 400⟩
  | some f =>
    if f = "" then .error ⟨"invalid_request", "Missing CSRF token in form data", 400⟩
    else
      match cookieToken with
      | none => .error ⟨"invalid_request", "Missing CSRF token cookie", 400⟩
      | some c =>
        if c = "" then .error ⟨"invalid_request", "Missing CSRF token cookie", 400⟩
        else if f ≠ c then .error ⟨"invalid_request", "CSRF token mismatch", 400⟩
        else .ok ⟨"__Host-CSRF_TOKEN=; HttpOnly; Secure; Path=/; SameSite=Lax; Max-Age=0"⟩

/-- Browser cookie jar after one `validateCSRFToken` attempt: on success
the response carries the `Max-Age=0` clearing directive, deleting the
cookie; a thrown `OAuthError` carries no `Set-Cookie`, leaving the jar
unchanged. -/
def csrfJarAfter (formToken jar : Option String) : Option String :=
  match validateCSRFTokenCore formToken jar with
  | .ok _ => none
  | .error _ => jar

/-! ## `workers-oauth-utils.ts`: one-time OAuth state + session binding -/

/-- Result of `createOAuthState`. -/
structure OAuthStateResult where
  stateToken : String
deriving DecidableEq, Repr

/-- Result of `validateOAuthState`. -/
structure ValidateStateResult (α : Type) where
  data : α
  clearCookie : String
deriving DecidableEq, Repr

/-- The KV key `oauth:state:<token>` used by the state store. -/
def stateKey (token : String) : String := "oauth:state:" ++ token

/-- The `Set-Cookie` directive clearing the session-binding cookie. -/
def clearConsentCookieStr : String :=
  "__Host-CONSENTED_STATE=; HttpOnly; Secure; Path=/; SameSite=Lax; Max-Age=0"

/-- `createOAuthState(data, kv, ttl)`: stores `JSON.stringify(data)` under
`oauth:state:<uuid>`. The random `crypto.randomUUID()` and the
serializer are parameters; TTL bookkeeping is external to the model
(claims quantify over unexpired entries). -/
def createOAuthState {α : Type} (stringify : α → String) (data : α) (kv : KV) (uuid : String) :
    OAuthStateResult × KV :=
  (⟨uuid⟩, kvPut kv (stateKey uuid) (stringify data))

/-- `bindStateToSession(stateToken)`: sets the `__Host-CONSENTED_STATE`
cookie to the SHA-256 hex digest of the token (`hashHex` parameter). -/
def bindStateToSession (hashHex : String → String) (stateToken : String) : String :=
  "__Host-CONSENTED_STATE=" ++ hashHex stateToken ++ "; HttpOnly; Secure; Path=/; SameSite=Lax; Max-Age=600"

/-- `validateOAuthState(request, kv)` over the extracted `state` query
parameter and the extracted `__Host-CONSENTED_STATE` cookie value.
Follows the source order exactly: missing state, KV lookup, falsy
binding cookie, digest comparison, `JSON.parse` (throws `server_error`
on failure), then delete-and-return. Returns the result together with
the KV store left behind. -/
def validateOAuthState {α : Type} (jparse : String → Option α) (hashHex : String → String)
    (stateQ bindingCookie : Option String) (kv : KV) :
    Except OAuthError (ValidateStateResult α) × KV :=
  match stateQ with
  | none => (.error ⟨"invalid_request", "Missing state parameter", 400⟩, kv)
  | some s =>
    if s = "" then (.error ⟨"invalid_request", "Missing state parameter", 400⟩, kv)
    else
      match kvGet kv (stateKey s) with
      | none => (.error ⟨"invalid_request", "Invalid or expired state", 400⟩, kv)
      | some storedDataJson =>
        match bindingCookie with
        | none =>
          (.error ⟨"invalid_request", "Missing session binding cookie - authorization flow must be restarted", 400⟩, kv)
        | some h =>
          if h = "" then
            (.error ⟨"invalid_request", "Missing session binding cookie - authorization flow must be restarted", 400⟩, kv)
          else if hashHex s ≠ h then
            (.error ⟨"invalid_request", "State token does not match session - possible CSRF attack detected", 400⟩, kv)
          else
            match jparse storedDataJson with
            | none => (.error ⟨"server_error", "Invalid state data", 500⟩, kv)
            | some d => (.ok ⟨d, clearConsentCookieStr⟩, kvDelete kv (stateKey s))

/-- `Except.isOk` as a plain definition usable in statements. -/
def exOk {ε α : Type} : Except ε α → Bool
  | .ok _ => true
  | .error _ => false

/-! ## base64 (`btoa` / `atob`) and hex, as used by the approved-clients cookie -/

/-- The base64 alphabet. -/
def b64Alphabet : List Char :=
  "ABCDEFGHIJKLMNOPQRSTUVWXYZabcdefghijklmnopqrstuvwxyz0123456789+/".toList

/-- Character for a 6-bit value. -/
def b64EncChar (n : Nat) : Char := b64Alphabet.getD n 'A'

/-- base64-encode a byte list (3-byte groups, `=` padding). -/
def b64Encode : List Nat → List Char
  | [] => []
  | [x] => [b64EncChar (x / 4), b64EncChar (x % 4 * 16), '=', '=']
  | [x, y] => [b64EncChar (x / 4), b64EncChar (x % 4 * 16 + y / 16), b64EncChar (y % 16 * 4), '=']
  | x :: y :: z :: rest =>
    b64EncChar (x / 4) :: b64EncChar (x % 4 * 16 + y / 16) ::
      b64EncChar (y % 16 * 4 + z / 64) :: b64EncChar (z % 64) :: b64Encode rest

/-- `btoa(s)` for latin1 strings (code points taken as bytes). -/
def btoaM (s : String) : String := String.mk (b64Encode (s.toList.map Char.toNat))

/-- 6-bit value of a base64 character (`none` outside the alphabet). -/
def b64Val (c : Char) : Option Nat := List.indexOf? c b64Alphabet

/-- ASCII whitespace removed by forgiving-base64 decoding. -/
def isB64Ws (c : Char) : Bool :=
  c = ' ' || c = Char.ofNat 9 || c = Char.ofNat 10 || c = Char.ofNat 12 || c = Char.ofNat 13

/-- Strip up to two trailing `=` padding characters. -/
def stripPad (cs : List Char) : List Char :=
  match cs.reverse with
  | '=' :: '=' :: rest => rest.reverse
  | '=' :: rest => rest.reverse
  | _ => cs

/-- Decode a list of 6-bit values into bytes (remainder of 2 gives one
byte, remainder of 3 gives two). -/
def b64DecodeVals : List Nat → List Nat
  | a :: b :: c :: d :: rest =>
    (a * 4 + b / 16) :: (b % 16 * 16 + c / 4) :: (c % 4 * 64 + d) :: b64DecodeVals rest
  | [a, b] => [a * 4 + b / 16]
  | [a, b, c] => [a * 4 + b / 16, b % 16 * 16 + c / 4]
  | _ => []

/-- Forgiving-base64 decode (the WHATWG algorithm behind `atob`):
remove ASCII whitespace, strip padding when the length is a multiple of
four, fail on a leftover length of 1 mod 4 or on any character outside
the alphabet. `none` models the `InvalidCharacterError` throw. -/
def atobChars (cs0 : List Char) : Option (List Nat) :=
  let cs1 := cs0.filter (fun c => !isB64Ws c)
  let cs := if cs1.length % 4 = 0 then stripPad cs1 else cs1
  if cs.length % 4 = 1 then none
  else (cs.mapM b64Val).map b64DecodeVals

/-- `atob(s)`; `none` models the `InvalidCharacterError` throw. -/
def atobM (s : String) : Option String :=
  (atobChars s.toList).map (fun bs => String.mk (bs.map Char.ofNat))

/-- Lowercase hex digit. -/
def hexDigitChar (n : Nat) : Char := "0123456789abcdef".toList.getD n '0'

/-- `bytes.map(b => b.toString(16).padStart(2, "0")).join("")`. -/
def bytesToHex (bs : List Nat) : String :=
  String.mk ((bs.map (fun b => [hexDigitChar (b / 16), hexDigitChar (b % 16)])).flatten)

/-- Hex digit value, accepting both cases (as `parseInt(_, 16)` does). -/
def hexVal (c : Char) : Option Nat :=
  if '0' ≤ c ∧ c ≤ '9' then some (c.toNat - '0'.toNat)
  else if 'a' ≤ c ∧ c ≤ 'f' then some (c.toNat - 'a'.toNat + 10)
  else if 'A' ≤ c ∧ c ≤ 'F' then some (c.toNat - 'A'.toNat + 10)
  else none

/-- `signatureHex.match(/.{1,2}/g)`: chunks of one or two characters. -/
def chunk2 : List Char → List (List Char)
  | [] => []
  | [a] => [[a]]
  | a :: b :: rest => [a, b] :: chunk2 rest

/-- `Number.parseInt(chunk, 16)` coerced through `Uint8Array`: the
longest hex prefix is parsed; `NaN` (no hex prefix) becomes byte 0. -/
def jsParseIntHexByte : List Char → Nat
  | [] => 0
  | c :: rest =>
    match hexVal c with
    | none => 0
    | some v =>
      match rest with
      | [] => v
      | d :: _ =>
        match hexVal d with
        | none => v
        | some w => v * 16 + w

/-- `verifySignature(signatureHex, data, secret)`: decodes the hex
signature into bytes and compares with the HMAC of `data` (the keyed
hash `hm` is a parameter). An empty signature makes the regex match
return `null`, whose dereference throws and is caught, yielding
`false`. -/
def verifySignature (hm : String → List Nat) (sigHex data : String) : Bool :=
  if sigHex.toList.isEmpty then false
  else ((chunk2 sigHex.toList).map jsParseIntHexByte) == hm data

/-! ## JSON.stringify for string arrays (approved-clients payload) -/

/-- Escape one character as `JSON.stringify` does. -/
def jsonEscapeChar (c : Char) : List Char :=
  if c = '"' then ['\\', '"']
  else if c = '\\' then ['\\', '\\']
  else if c = Char.ofNat 8 then ['\\', 'b']
  else if c = Char.ofNat 9 then ['\\', 't']
  else if c = Char.ofNat 10 then ['\\', 'n']
  else if c = Char.ofNat 12 then ['\\', 'f']
  else if c = Char.ofNat 13 then ['\\', 'r']
  else if c.toNat < 32 then ['\\', 'u', '0', '0', hexDigitChar (c.toNat / 16), hexDigitChar (c.toNat % 16)]
  else [c]

/-- `JSON.stringify` of one string. -/
def jsonStringifyStr (s : String) : String :=
  "\"" ++ String.mk ((s.toList.map jsonEscapeChar).flatten) ++ "\""

/-- `JSON.stringify` of a string array. -/
def jsonStringifyStrArray (l : List String) : String :=
  "[" ++ String.intercalate "," (l.map jsonStringifyStr) ++ "]"

/-! ## `workers-oauth-utils.ts`: approved-clients cookie -/

/-- `String.split` on a single character, accumulator worker. -/
def splitOnCharGo (sep : Char) : List Char → List Char → List (List Char)
  | [], cur => [cur.reverse]
  | c :: rest, cur =>
    if c = sep then cur.reverse :: splitOnCharGo sep rest []
    else splitOnCharGo sep rest (c :: cur)

/-- `s.split(sep)` for a one-character separator. -/
def splitOnChar (sep : Char) (cs : List Char) : List (List Char) := splitOnCharGo sep cs []

/-- `getApprovedClientsFromCookie(request, secret)` over the extracted
`__Host-APPROVED_CLIENTS` cookie value (`none` when the header or the
cookie is absent). `hm` is the HMAC-SHA256 of the payload under the
cookie secret; `jparse` models `JSON.parse` followed by the
string-array shape check (`none` on either failing, both caught by the
source's `try`). The `atob` of the payload section is NOT inside a
`try` in the source, so its failure propagates as a thrown
`InvalidCharacterError`, modelled by `Except.error`. -/
def getApprovedClientsFromCookie (hm : String → List Nat) (jparse : String → Option (List String))
    (cookieVal : Option String) : Except String (Option (List String)) :=
  match cookieVal with
  | none => .ok none
  | some v =>
    match splitOnChar '.' v.toList with
    | [sigChars, b64Chars] =>
      match atobChars b64Chars with
      | none => .error "InvalidCharacterError"
      | some payloadBytes =>
        let payload := String.mk (payloadBytes.map Char.ofNat)
        if verifySignature hm (String.mk sigChars) payload then .ok (jparse payload)
        else .ok none
    | _ => .ok none

/-- `isClientApproved(request, clientId, secret)`:
`approvedClients?.includes(clientId) ?? false`; a throw from
`getApprovedClientsFromCookie` propagates. -/
def isClientApproved (hm : String → List Nat) (jparse : String → Option (List String))
    (cookieVal : Option String) (clientId : String) : Except String Bool :=
  (getApprovedClientsFromCookie hm jparse cookieVal).map (fun o =>
    match o with
    | some l => l.contains clientId
    | none => false)

/-- The `<signature>.<base64(payload)>` cookie value built by
`addApprovedClient` (before wrapping into the `Set-Cookie` header). -/
def approvedCookieValue (hm : String → List Nat) (jparse : String → Option (List String))
    (cookieVal : Option String) (clientId : String) : Except String String :=
  (getApprovedClientsFromCookie hm jparse cookieVal).map (fun existing =>
    let updated := jsSetDedup (existing.getD [] ++ [clientId])
    let payload := jsonStringifyStrArray updated
    bytesToHex (hm payload) ++ "." ++ btoaM payload)

/-- `addApprovedClient(request, clientId, secret)`: the full
`Set-Cookie` header value (30-day TTL). -/
def addApprovedClient (hm : String → List Nat) (jparse : String → Option (List String))
    (cookieVal : Option String) (clientId : String) : Except String String :=
  (approvedCookieValue hm jparse cookieVal clientId).map (fun v =>
    "__Host-APPROVED_CLIENTS=" ++ v ++ "; HttpOnly; Secure; Path=/; SameSite=Lax; Max-Age=2592000")

/-! ## `utils.ts`: `fetchUpstreamAuthToken` -/

/-- The `TokenResponse` interface of `utils.ts`; every field may be
absent in the parsed body. -/
structure TokenResponse where
  access_token : Option String
  refresh_token : Option String
  expires_in : Option Int
  token_type : Option String
  scope : Option String
deriving DecidableEq, Repr

/-- The upstream token endpoint's HTTP response as observed by
`fetchUpstreamAuthToken`: `jsonBody` is the result of `resp.json()`
(`none` models a parse throw), `formBody` the result of
`resp.formData()` (`none` models a throw), `textBody` the result of
`resp.text()` used in the error message. -/
structure HttpResp where
  ok : Bool
  status : Nat
  contentType : String
  jsonBody : Option TokenResponse
  formBody : Option (List (String × String))
  textBody : String
deriving DecidableEq, Repr

/-- The error `Response` values returned by `fetchUpstreamAuthToken`. -/
structure ErrResponse where
  status : Nat
  body : String
deriving DecidableEq, Repr

/-- `pat` occurs as a contiguous sublist of `s` (`String.includes`). -/
def listStartsWith : List Char → List Char → Bool
  | [], _ => true
  | _ :: _, [] => false
  | p :: ps, c :: cs => p = c && listStartsWith ps cs

/-- `s.includes(pat)` on character lists. -/
def hasSub (pat : List Char) : List Char → Bool
  | [] => listStartsWith pat []
  | c :: t => listStartsWith pat (c :: t) || hasSub pat t

/-- `contentType.includes(pat)`. -/
def jsIncludes (s pat : String) : Bool := hasSub pat.toList s.toList

/-- `parseInt(s)` (radix 10) as used for `expires_in`; `none` models
`NaN`. -/
def jsParseInt (s : String) : Option Int :=
  match s.toList with
  | '-' :: rest => (digitsPrefixVal rest).map (fun n => -(n : Int))
  | cs => (digitsPrefixVal cs).map (fun n => (n : Int))
where
  digitsPrefixVal (cs : List Char) : Option Nat :=
    match cs with
    | c :: _ =>
      if c.isDigit then
        some (((cs.takeWhile Char.isDigit).map (fun d => d.toNat - '0'.toNat)).foldl
          (fun acc d => acc * 10 + d) 0)
      else none
    | [] => none

/-- `formData.get(k)`: first value for the key, `null` when absent. -/
def formGet (fs : List (String × String)) (k : String) : Option String :=
  (fs.find? (fun p => p.1 = k)).map (fun p => p.2)

/-- Body parsing of `fetchUpstreamAuthToken`: JSON when the
`content-type` includes `application/json`, otherwise the
form-urlencoded shape built field by field; `none` models the caught
parse throw. -/
def parseTokenBody (r : HttpResp) : Option TokenResponse :=
  if jsIncludes r.contentType "application/json" then r.jsonBody
  else
    r.formBody.map (fun fs =>
      { access_token := formGet fs "access_token"
        refresh_token := formGet fs "refresh_token"
        expires_in :=
          match formGet fs "expires_in" with
          | some s => if s = "" then none else jsParseInt s
          | none => none
        token_type := formGet fs "token_type"
        scope := formGet fs "scope" })

/-- `fetchUpstreamAuthToken({...})`: missing/empty `code` gives a 400
error; a non-ok HTTP response gives a 500 error embedding the upstream
body; a body that fails to parse gives a 500 error; a parsed body with
a falsy `access_token` gives a 400 error; otherwise the parsed
`TokenResponse` is returned. -/
def fetchUpstreamAuthToken (code : Option String) (r : HttpResp) :
    Except ErrResponse TokenResponse :=
  if ¬ jsTruthyO code then .error ⟨400, "Missing code"⟩
  else if ¬ r.ok then .error ⟨500, "Failed to fetch access token: " ++ r.textBody⟩
  else
    match parseTokenBody r with
    | none => .error ⟨500, "Failed to parse token response"⟩
    | some td =>
      if ¬ jsTruthyO td.access_token then .error ⟨400, "Missing access token in response"⟩
      else .ok td

/-! ## `oauth-handler.ts`: callback merge and completion -/

/-- A dynamically typed JavaScript value as it flows through the
callback handler: a string, a whole `TokenResponse` object, or
`undefined`. -/
inductive JsVal where
  | str (s : String)
  | obj (t : TokenResponse)
  | undef
deriving DecidableEq, Repr

/-- JavaScript truthiness of a `JsVal`. -/
def jsTruthyVal : JsVal → Bool
  | .str s => s != ""
  | .obj _ => true
  | .undef => false

/-- `typeof v === "string"`. -/
def jsTypeofIsString : JsVal → Bool
  | .str _ => true
  | _ => false

/-- One provider entry of the merged `providers` record
(`{ accessToken, refreshToken? }`). -/
structure Cred where
  accessToken : JsVal
  refreshToken : Option String
deriving DecidableEq, Repr

/-- The `providers` record after `Object.fromEntries(...filter(v !==
undefined))`: `none` per provider models an absent/undefined entry. -/
structure ProvidersMap where
  github : Option Cred
  gmail : Option Cred
  calendar : Option Cred
  drive : Option Cred
  notion : Option Cred
deriving DecidableEq, Repr

/-- The `Props` decoded from an existing MCP token
(`stateData.existingProps`), carried over into an incremental flow.
Optional provider tokens follow the `Props` interface of `utils.ts`;
`login` travels through the interface's index signature. -/
structure Props where
  accessToken : String
  login : String
  name : String
  email : String
  gmailAccessToken : Option String
  gmailRefreshToken : Option String
  calendarAccessToken : Option String
  calendarRefreshToken : Option String
  driveAccessToken : Option String
  driveRefreshToken : Option String
  notionAccessToken : Option String
  notionRefreshToken : Option String
  connectedIntegrations : List String
deriving DecidableEq, Repr

/-- An existing provider entry carried over when its access token is
truthy: `x ? { accessToken: x, refreshToken: y } : undefined`. -/
def keepCred (a r : Option String) : Option Cred :=
  if jsTruthyO a then some ⟨.str (a.getD ""), r⟩ else none

/-- The `[provider]: cred` computed key of the merge object literal
(later keys override earlier ones in JavaScript object literals). -/
def setProv (m : ProvidersMap) (p : String) (c : Cred) : ProvidersMap :=
  if p = "github" then { m with github := some c }
  else if p = "gmail" then { m with gmail := some c }
  else if p = "calendar" then { m with calendar := some c }
  else if p = "drive" then { m with drive := some c }
  else if p = "notion" then { m with notion := some c }
  else m

/-- The `mergedProviders` object of the Google branch of
`GET /callback/:provider` (gmail / calendar / drive), transcribing the
source ternaries verbatim: for each Google provider the condition
`provider === "<p>" || existingProps.<p>AccessToken` short-circuits the
preservation arm, so the spread contributes `undefined` for it in every
case; the computed `[provider]` key then installs the fresh
credential. -/
def googleMerge (p : String) (e? : Option Props) (c : Cred) : ProvidersMap :=
  setProv
    (match e? with
     | none => ⟨none, none, none, none, none⟩
     | some e =>
       { github := if e.accessToken ≠ "" then some ⟨.str e.accessToken, none⟩ else none
         gmail :=
           if p = "gmail" || jsTruthyO e.gmailAccessToken then none
           else keepCred e.gmailAccessToken e.gmailRefreshToken
         calendar :=
           if p = "calendar" || jsTruthyO e.calendarAccessToken then none
           else keepCred e.calendarAccessToken e.calendarRefreshToken
         drive :=
           if p = "drive" || jsTruthyO e.driveAccessToken then none
           else keepCred e.driveAccessToken e.driveRefreshToken
         notion :=
           if jsTruthyO e.notionAccessToken then some ⟨.str (e.notionAccessToken.getD ""), none⟩
           else none })
    p c

/-- The `mergedProviders` object of the GitHub branch: all carried-over
entries are preserved when truthy and `github` is overwritten with the
fresh token. -/
def githubMerge (e? : Option Props) (newTok : JsVal) : ProvidersMap :=
  match e? with
  | none => ⟨some ⟨newTok, none⟩, none, none, none, none⟩
  | some e =>
    { github := some ⟨newTok, none⟩
      gmail := keepCred e.gmailAccessToken e.gmailRefreshToken
      calendar := keepCred e.calendarAccessToken e.calendarRefreshToken
      drive := keepCred e.driveAccessToken e.driveRefreshToken
      notion :=
        if jsTruthyO e.notionAccessToken then some ⟨.str (e.notionAccessToken.getD ""), none⟩
        else none }

/-- The `mergedProviders` object of the Notion branch: all carried-over
entries are preserved when truthy and `notion` is overwritten with the
fresh access token. -/
def notionMerge (e? : Option Props) (newAT : String) : ProvidersMap :=
  match e? with
  | none => ⟨none, none, none, none, some ⟨.str newAT, none⟩⟩
  | some e =>
    { github := if e.accessToken ≠ "" then some ⟨.str e.accessToken, none⟩ else none
      gmail := keepCred e.gmailAccessToken e.gmailRefreshToken
      calendar := keepCred e.calendarAccessToken e.calendarRefreshToken
      drive := keepCred e.driveAccessToken e.driveRefreshToken
      notion := some ⟨.str newAT, none⟩ }

/-- The identity triple used for `props` and `userId` in
`completeAuthorization`. -/
structure UserData where
  login : String
  name : String
  email : String
deriving DecidableEq, Repr

/-- The fields of the Google `userinfo` response used by the handler. -/
structure GoogleUserInfo where
  email : Option String
  name : Option String
  id : Option String
deriving DecidableEq, Repr

/-- `email.split("@")[0]`: the characters before the first `@`. -/
def emailLocalPart (s : String) : String :=
  String.mk (s.toList.takeWhile (fun c => c ≠ '@'))

/-- `userData` resolution of the Google callback branch: an existing
props bundle wins outright; otherwise the fetched `userinfo` is shaped
(`ui = none` covers a failed or non-ok fetch), falling back to the
`google-user` placeholder. -/
def googleUserData (e? : Option Props) (ui : Option GoogleUserInfo) : UserData :=
  match e? with
  | some e => ⟨e.login, e.name, e.email⟩
  | none =>
    match ui with
    | some u =>
      ⟨jsOrS (match u.email with | some m => emailLocalPart m | none => "")
         (jsOrS (u.id.getD "") "google-user"),
       jsOrS (u.name.getD "") (jsOrS (u.email.getD "") "Google User"),
       u.email.getD ""⟩
    | none => ⟨"google-user", "Google User", ""⟩

/-- The `owner?.name` object of the Notion token response
(`notionUser` in the handler). -/
structure NotionOwnerUser where
  id : Option String
  name : Option String
  personEmail : Option String
deriving DecidableEq, Repr

/-- The fields of the Notion token response used by the handler. -/
structure NotionTokenData where
  access_token : String
  refresh_token : Option String
  workspace_name : Option String
  ownerName : Option NotionOwnerUser
deriving DecidableEq, Repr

/-- `userData` resolution of the Notion callback branch: prefer the
existing props, else build from the Notion response with the
`notion-user` / workspace-name fallbacks. -/
def notionUserData (e? : Option Props) (td : NotionTokenData) : UserData :=
  match e? with
  | some e => ⟨e.login, e.name, e.email⟩
  | none =>
    ⟨jsOrS ((td.ownerName.bind (fun u => u.id)).getD "") "notion-user",
     jsOrS ((td.ownerName.bind (fun u => u.name)).getD "")
       (jsOrS (td.workspace_name.getD "") "Notion Workspace"),
     (td.ownerName.bind (fun u => u.personEmail)).getD ""⟩

/-- The `props` record handed to
`c.env.OAUTH_PROVIDER.completeAuthorization` — the completed credential
bundle. -/
structure CompletedProps where
  accessToken : JsVal
  login : String
  name : String
  email : String
  gmailAccessToken : Option JsVal
  gmailRefreshToken : Option String
  calendarAccessToken : Option JsVal
  calendarRefreshToken : Option String
  driveAccessToken : Option JsVal
  driveRefreshToken : Option String
  notionAccessToken : Option JsVal
  connectedIntegrations : List String
deriving DecidableEq, Repr

/-- `providers.github?.accessToken || ""`. -/
def githubTokenOrEmpty : Option JsVal → JsVal
  | none => .str ""
  | some v => if jsTruthyVal v then v else .str ""

/-- `completeAuthorization`'s construction of the stored `props` from
the merged providers, user data and integration list. -/
def buildProps (m : ProvidersMap) (u : UserData) (ints : List String) : CompletedProps :=
  { accessToken := githubTokenOrEmpty (m.github.map (fun c => c.accessToken))
    login := u.login
    name := u.name
    email := u.email
    gmailAccessToken := m.gmail.map (fun c => c.accessToken)
    gmailRefreshToken := m.gmail.bind (fun c => c.refreshToken)
    calendarAccessToken := m.calendar.map (fun c => c.accessToken)
    calendarRefreshToken := m.calendar.bind (fun c => c.refreshToken)
    driveAccessToken := m.drive.map (fun c => c.accessToken)
    driveRefreshToken := m.drive.bind (fun c => c.refreshToken)
    notionAccessToken := m.notion.map (fun c => c.accessToken)
    connectedIntegrations := ints }

/-- `existingProps?.connectedIntegrations || []`. -/
def connectedOf : Option Props → List String
  | some e => e.connectedIntegrations
  | none => []

/-- The completed bundle of a Google-provider callback
(gmail / calendar / drive): merged providers, resolved user data, and
`Array.from(new Set([...prior, provider]))` integrations. -/
def googleCallbackCompletedProps (p : String) (e? : Option Props) (ui : Option GoogleUserInfo)
    (c : Cred) : CompletedProps :=
  buildProps (googleMerge p e? c) (googleUserData e? ui) (jsSetDedup (connectedOf e? ++ [p]))

/-- The completed bundle of the Notion callback. -/
def notionCallbackCompletedProps (e? : Option Props) (td : NotionTokenData) : CompletedProps :=
  buildProps (notionMerge e? td.access_token) (notionUserData e? td)
    (jsSetDedup (connectedOf e? ++ ["notion"]))

/-- The completed bundle of the GitHub callback. -/
def githubCallbackCompletedProps (e? : Option Props) (newTok : JsVal) (u : UserData) : CompletedProps :=
  buildProps (githubMerge e? newTok) u (jsSetDedup (connectedOf e? ++ ["github"]))

/-- The character code of an opening curly brace. -/
def openBraceChar : Char := Char.ofNat 123

/-- The Google branch's handling of `fetchUpstreamAuthToken`'s result:
`if (typeof tokenResponse === "string" && tokenResponse.startsWith(...))
{ parse JSON, take access_token / refresh_token } else { accessToken =
tokenResponse }`. `jp` models `JSON.parse` into a `TokenResponse`.
Returns the pair `(accessToken, refreshToken)` of the handler's local
variables. -/
def googleTokenExtract (jp : String → TokenResponse) (v : JsVal) : JsVal × Option String :=
  if jsTypeofIsString v then
    match v with
    | .str s =>
      if s.toList.head? = some openBraceChar then
        let td := jp s
        ((match td.access_token with | some a => .str a | none => .undef), td.refresh_token)
      else (v, none)
    | _ => (v, none)
  else (v, none)

/-- The per-provider access token slot of a completed bundle, keyed the
way `completeAuthorization` stores it. -/
def providerCredOf (cp : CompletedProps) (p : String) : Option JsVal :=
  if p = "gmail" then cp.gmailAccessToken
  else if p = "calendar" then cp.calendarAccessToken
  else if p = "drive" then cp.driveAccessToken
  else if p = "notion" then cp.notionAccessToken
  else none

/-!
## Theorems about the one-time state store
-/

/-- Claim C2: for every JSON-serializable payload and state token
returned by `createOAuthState`, the first `validateOAuthState` call
with that token and a matching session-binding cookie returns the
payload after the JSON stringify/parse round trip, and a second call
with the same token fails with an `invalid_request` error. -/
theorem state_roundtrip_and_single_use {α : Type} (stringify : α → String)
    (jparse : String → Option α) (hashHex : String → String)
    (payload d : α) (kv : KV) (uuid : String)
    (hu : uuid ≠ "") (hh : hashHex uuid ≠ "")
    (hp : jparse (stringify payload) = some d) :
    validateOAuthState jparse hashHex (some uuid) (some (hashHex uuid))
        (createOAuthState stringify payload kv uuid).2
      = (.ok ⟨d, clearConsentCookieStr⟩,
         kvDelete (kvPut kv (stateKey uuid) (stringify payload)) (stateKey uuid))
    ∧ validateOAuthState jparse hashHex (some uuid) (some (hashHex uuid))
        (kvDelete (kvPut kv (stateKey uuid) (stringify payload)) (stateKey uuid))
      = (.error ⟨"invalid_request", "Invalid or expired state", 400⟩,
         kvDelete (kvPut kv (stateKey uuid) (stringify payload)) (stateKey uuid)) := by
  constructor
  · simp [validateOAuthState, createOAuthState, hu, hh, kvGet_kvPut, hp]
  · simp [validateOAuthState, hu, kvGet_kvDelete]

/-- Witness for C2 at a concrete payload, token, hash and store. -/
theorem state_roundtrip_and_single_use_witness :
    validateOAuthState (α := String) some (fun s => "h" ++ s) (some "t") (some ("h" ++ "t"))
        (createOAuthState id "p" ([] : KV) "t").2
      = (.ok ⟨"p", clearConsentCookieStr⟩,
         kvDelete (kvPut ([] : KV) (stateKey "t") (id "p")) (stateKey "t"))
    ∧ validateOAuthState (α := String) some (fun s => "h" ++ s) (some "t") (some ("h" ++ "t"))
        (kvDelete (kvPut ([] : KV) (stateKey "t") (id "p")) (stateKey "t"))
      = (.error ⟨"invalid_request", "Invalid or expired state", 400⟩,
         kvDelete (kvPut ([] : KV) (stateKey "t") (id "p")) (stateKey "t")) :=
  state_roundtrip_and_single_use id some (fun s => "h" ++ s) "p" "p" ([] : KV) "t"
    (by decide) (by decide) rfl

/-- Claim C3: a callback carrying a stored, unexpired state token but no
matching session-binding cookie (missing, or unequal to the digest of
the token) fails with `invalid_request` and does not delete the stored
entry, which therefore remains consumable by the rightful browser. -/
theorem replayed_state_not_consumed {α : Type} (jparse : String → Option α)
    (hashHex : String → String) (t v : String) (kv : KV) (cookieVal : Option String) (d : α)
    (ht : t ≠ "") (hh : hashHex t ≠ "")
    (hstored : kvGet kv (stateKey t) = some v)
    (hbad : cookieVal ≠ some (hashHex t))
    (hparse : jparse v = some d) :
    (∃ e : OAuthError,
        validateOAuthState jparse hashHex (some t) cookieVal kv = (.error e, kv)
        ∧ e.code = "invalid_request" ∧ e.statusCode = 400)
    ∧ validateOAuthState jparse hashHex (some t) (some (hashHex t)) kv
        = (.ok ⟨d, clearConsentCookieStr⟩, kvDelete kv (stateKey t)) := by
  constructor
  · cases cookieVal with
    | none =>
      exact ⟨⟨"invalid_request",
        "Missing session binding cookie - authorization flow must be restarted", 400⟩,
        by simp [validateOAuthState, ht, hstored], rfl, rfl⟩
    | some c =>
      by_cases hc : c = ""
      · exact ⟨⟨"invalid_request",
          "Missing session binding cookie - authorization flow must be restarted", 400⟩,
          by simp [validateOAuthState, ht, hstored, hc], rfl, rfl⟩
      · have hcne : hashHex t ≠ c := fun h => hbad (by rw [h])
        exact ⟨⟨"invalid_request",
          "State token does not match session - possible CSRF attack detected", 400⟩,
          by simp [validateOAuthState, ht, hstored, hc, hcne], rfl, rfl⟩
  · simp [validateOAuthState, ht, hstored, hh, hparse]

/-- Witness for C3 with a concrete store and an attacker request that
carries no binding cookie. -/
theorem replayed_state_not_consumed_witness :
    (∃ e : OAuthError,
        validateOAuthState (α := String) some (fun s => "h" ++ s) (some "t") none
            ([(stateKey "t", "v")] : KV)
          = (.error e, ([(stateKey "t", "v")] : KV))
        ∧ e.code = "invalid_request" ∧ e.statusCode = 400)
    ∧ validateOAuthState (α := String) some (fun s => "h" ++ s) (some "t")
        (some ((fun s => "h" ++ s) "t")) ([(stateKey "t", "v")] : KV)
        = (.ok ⟨"v", clearConsentCookieStr⟩, kvDelete ([(stateKey "t", "v")] : KV) (stateKey "t")) :=
  replayed_state_not_consumed some (fun s => "h" ++ s) "t" "v" ([(stateKey "t", "v")] : KV)
    none "v" (by decide) (by decide) rfl (by simp) rfl

/-- Concrete parser used only in the C4 counterexample. -/
def jparseC4 : String → Option Nat := fun _ => some 0

/-- Concrete digest function used only in the C4 counterexample. -/
def hashC4 : String → String := fun s => "sha-" ++ s

/-- Counterexample to claim C4: here the state key exists in the store,
the session-binding check fails, and the failed validation leaves the
key in the store — so state validation does peek, and the key is NOT
deleted regardless of the binding check, contradicting the claim. -/
theorem state_read_not_destructive_counterexample :
    kvGet ([(stateKey "tok", "data")] : KV) (stateKey "tok") = some "data"
    ∧ validateOAuthState jparseC4 hashC4 (some "tok") none ([(stateKey "tok", "data")] : KV)
        = (.error ⟨"invalid_request",
            "Missing session binding cookie - authorization flow must be restarted", 400⟩,
           ([(stateKey "tok", "data")] : KV))
    ∧ kvGet (validateOAuthState jparseC4 hashC4 (some "tok") none
          ([(stateKey "tok", "data")] : KV)).2 (stateKey "tok") = some "data" := by
  exact ⟨rfl, rfl, rfl⟩

/-- Amended claim C4: the state entry is deleted exactly when validation
fully succeeds; any failure (including a failed session-binding check,
which runs before consumption) leaves the store unchanged. -/
theorem state_deleted_iff_validation_succeeds {α : Type} (jparse : String → Option α)
    (hashHex : String → String) (s : String) (cookieVal : Option String) (kv : KV) :
    (validateOAuthState jparse hashHex (some s) cookieVal kv).2
      = if exOk (validateOAuthState jparse hashHex (some s) cookieVal kv).1
        then kvDelete kv (stateKey s) else kv := by
  by_cases hs : s = ""
  · simp [validateOAuthState, hs, exOk]
  · cases hk : kvGet kv (stateKey s) with
    | none => simp [validateOAuthState, hs, hk, exOk]
    | some v =>
      cases cookieVal with
      | none => simp [validateOAuthState, hs, hk, exOk]
      | some c =>
        by_cases hc : c = ""
        · simp [validateOAuthState, hs, hk, hc, exOk]
        · by_cases hm : hashHex s ≠ c
          · simp [validateOAuthState, hs, hk, hc, hm, exOk]
          · cases hp : jparse v with
            | none => simp [validateOAuthState, hs, hk, hc, hm, hp, exOk]
            | some d => simp [validateOAuthState, hs, hk, hc, hm, hp, exOk]

/-- Claim C10: when the stored payload for an existing token fails JSON
deserialization, validation raises `server_error` (500) and leaves the
store unchanged — the key is not deleted and no cookie-clear directive
is produced (the error constructor carries none). -/
theorem corrupted_state_raises_server_error {α : Type} (jparse : String → Option α)
    (hashHex : String → String) (t v : String) (kv : KV)
    (ht : t ≠ "") (hh : hashHex t ≠ "")
    (hstored : kvGet kv (stateKey t) = some v)
    (hbadparse : jparse v = none) :
    validateOAuthState jparse hashHex (some t) (some (hashHex t)) kv
      = (.error ⟨"server_error", "Invalid state data", 500⟩, kv)
    ∧ kvGet kv (stateKey t) = some v := by
  refine ⟨?_, hstored⟩
  simp [validateOAuthState, ht, hh, hstored, hbadparse]

/-- Witness for C10 with a concrete corrupted entry. -/
theorem corrupted_state_raises_server_error_witness :
    validateOAuthState (α := Nat) (fun _ => none) (fun s => "h" ++ s) (some "t")
        (some ((fun s => "h" ++ s) "t")) ([(stateKey "t", "corrupt")] : KV)
      = (.error ⟨"server_error", "Invalid state data", 500⟩, ([(stateKey "t", "corrupt")] : KV))
    ∧ kvGet ([(stateKey "t", "corrupt")] : KV) (stateKey "t") = some "corrupt" :=
  corrupted_state_raises_server_error (fun _ => none) (fun s => "h" ++ s) "t" "corrupt"
    ([(stateKey "t", "corrupt")] : KV) (by decide) (by decide) rfl rfl

/-!
## Theorems about the CSRF guard
-/

/-- Claim C5: a CSRF token issued by `generateCSRFProtection` validates
successfully exactly when the cookie holds the same value; every
failure is an `invalid_request` (400); and after any validation attempt
— successful or not — resubmitting the same token against the resulting
cookie state fails. -/
theorem csrf_token_single_use (uuid : String) (hu : uuid ≠ "") (jar : Option String) :
    ((exOk (validateCSRFTokenCore (some (generateCSRFProtection uuid).token) jar) = true)
        ↔ jar = some (generateCSRFProtection uuid).token)
    ∧ (∀ e : OAuthError,
        validateCSRFTokenCore (some (generateCSRFProtection uuid).token) jar = .error e →
          e.code = "invalid_request" ∧ e.statusCode = 400)
    ∧ exOk (validateCSRFTokenCore (some (generateCSRFProtection uuid).token)
        (csrfJarAfter (some (generateCSRFProtection uuid).token) jar)) = false := by
  have htok : (generateCSRFProtection uuid).token = uuid := rfl
  rw [htok]
  refine ⟨?_, ?_, ?_⟩
  · cases jar with
    | none => simp [validateCSRFTokenCore, exOk, hu]
    | some c =>
      by_cases hc : c = ""
      · subst hc
        simp [validateCSRFTokenCore, exOk, hu, Ne.symm hu]
      · by_cases he : uuid = c
        · subst he
          simp [validateCSRFTokenCore, exOk, hu]
        · simp [validateCSRFTokenCore, exOk, hu, hc, he, eq_comm]
  · intro e he
    cases jar with
    | none => simp [validateCSRFTokenCore, hu] at he; simp [← he]
    | some c =>
      by_cases hc : c = ""
      · simp [validateCSRFTokenCore, hu, hc] at he; simp [← he]
      · by_cases heq : uuid = c
        · subst heq
          simp [validateCSRFTokenCore, hu] at he
        · simp [validateCSRFTokenCore, hu, hc, heq] at he; simp [← he]
  · rcases hfirst : validateCSRFTokenCore (some uuid) jar with e | r
    · have hjar : csrfJarAfter (some uuid) jar = jar := by
        unfold csrfJarAfter; rw [hfirst]
      rw [hjar, hfirst]; rfl
    · have hjar : csrfJarAfter (some uuid) jar = none := by
        unfold csrfJarAfter; rw [hfirst]
      rw [hjar]
      simp [validateCSRFTokenCore, exOk, hu]

/-- Witness for C5 at a concrete issued token with the matching cookie. -/
theorem csrf_token_single_use_witness :
    ((exOk (validateCSRFTokenCore (some (generateCSRFProtection "u").token) (some "u")) = true)
        ↔ some "u" = some (generateCSRFProtection "u").token)
    ∧ (∀ e : OAuthError,
        validateCSRFTokenCore (some (generateCSRFProtection "u").token) (some "u") = .error e →
          e.code = "invalid_request" ∧ e.statusCode = 400)
    ∧ exOk (validateCSRFTokenCore (some (generateCSRFProtection "u").token)
        (csrfJarAfter (some (generateCSRFProtection "u").token) (some "u"))) = false :=
  csrf_token_single_use "u" (by decide) (some "u")

/-!
## Theorems about the callback merge and completion
-/

/-- A prior bundle holding github and gmail credentials, used in the C1
counter-evidence. -/
def ePropsC1 : Props :=
  { accessToken := "GH", login := "alice", name := "Alice", email := "alice@example.com"
    gmailAccessToken := some "G", gmailRefreshToken := some "GR"
    calendarAccessToken := none, calendarRefreshToken := none
    driveAccessToken := none, driveRefreshToken := none
    notionAccessToken := none, notionRefreshToken := none
    connectedIntegrations := ["github", "gmail"] }

/-- Claim C1 failing input: completing a `calendar` callback over a
bundle that holds a gmail credential DROPS the gmail credential (the
Google branch's merge ternary yields `undefined` for every sibling
Google provider), while `connectedIntegrations` still lists gmail — so
a credential of a different provider is lost, contrary to the claim. -/
theorem google_merge_drops_sibling_credentials :
    ePropsC1.gmailAccessToken = some "G"
    ∧ (googleCallbackCompletedProps "calendar" (some ePropsC1) none
        ⟨.str "CAL", some "CR"⟩).gmailAccessToken = none
    ∧ (googleCallbackCompletedProps "calendar" (some ePropsC1) none
        ⟨.str "CAL", some "CR"⟩).gmailRefreshToken = none
    ∧ (googleCallbackCompletedProps "calendar" (some ePropsC1) none
        ⟨.str "CAL", some "CR"⟩).calendarAccessToken = some (.str "CAL")
    ∧ "gmail" ∈ (googleCallbackCompletedProps "calendar" (some ePropsC1) none
        ⟨.str "CAL", some "CR"⟩).connectedIntegrations := by
  refine ⟨rfl, rfl, rfl, rfl, ?_⟩
  decide

/-- Claim C7: with an existing bundle present, a Google-provider or
Notion callback keeps the anchor (`login`, `email`) unchanged, installs
the fresh credential for the callback provider, and extends the
connected-integrations list (prior entries all remain, the provider is
added). -/
theorem anchor_stability (p : String) (hp : p = "gmail" ∨ p = "calendar" ∨ p = "drive")
    (e : Props) (ui : Option GoogleUserInfo) (c : Cred) (td : NotionTokenData) :
    ((googleCallbackCompletedProps p (some e) ui c).login = e.login
     ∧ (googleCallbackCompletedProps p (some e) ui c).email = e.email
     ∧ providerCredOf (googleCallbackCompletedProps p (some e) ui c) p = some c.accessToken
     ∧ (∀ x ∈ e.connectedIntegrations,
          x ∈ (googleCallbackCompletedProps p (some e) ui c).connectedIntegrations)
     ∧ p ∈ (googleCallbackCompletedProps p (some e) ui c).connectedIntegrations)
    ∧ ((notionCallbackCompletedProps (some e) td).login = e.login
     ∧ (notionCallbackCompletedProps (some e) td).email = e.email
     ∧ (notionCallbackCompletedProps (some e) td).notionAccessToken = some (.str td.access_token)
     ∧ (∀ x ∈ e.connectedIntegrations,
          x ∈ (notionCallbackCompletedProps (some e) td).connectedIntegrations)
     ∧ "notion" ∈ (notionCallbackCompletedProps (some e) td).connectedIntegrations) := by
  have hsub : ∀ (q : String), ∀ x ∈ e.connectedIntegrations,
      x ∈ jsSetDedup (e.connectedIntegrations ++ [q]) := by
    intro q x hx
    exact (mem_jsSetDedup x _).mpr (List.mem_append.mpr (Or.inl hx))
  have hmem : ∀ (q : String), q ∈ jsSetDedup (e.connectedIntegrations ++ [q]) := by
    intro q
    exact (mem_jsSetDedup q _).mpr (List.mem_append.mpr (Or.inr (List.mem_singleton_self q)))
  refine ⟨?_, rfl, rfl, rfl, hsub "notion", hmem "notion"⟩
  rcases hp with h | h | h <;> subst h
  · exact ⟨rfl, rfl, rfl, hsub "gmail", hmem "gmail"⟩
  · exact ⟨rfl, rfl, rfl, hsub "calendar", hmem "calendar"⟩
  · exact ⟨rfl, rfl, rfl, hsub "drive", hmem "drive"⟩

/-- A prior bundle used in the C7 witness. -/
def ePropsW : Props :=
  { accessToken := "GH", login := "alice", name := "Alice", email := "alice@example.com"
    gmailAccessToken := none, gmailRefreshToken := none
    calendarAccessToken := none, calendarRefreshToken := none
    driveAccessToken := none, driveRefreshToken := none
    notionAccessToken := none, notionRefreshToken := none
    connectedIntegrations := ["github"] }

/-- Fresh credential used in the C7 witness. -/
def credW : Cred := ⟨.str "TOK", some "R"⟩

/-- Notion token data used in the C7 witness. -/
def ntdW : NotionTokenData := ⟨"NTOK", none, none, none⟩

/-- Witness for C7 at the gmail provider over a concrete prior bundle. -/
theorem anchor_stability_witness :
    (((googleCallbackCompletedProps "gmail" (some ePropsW) none credW).login = ePropsW.login
     ∧ (googleCallbackCompletedProps "gmail" (some ePropsW) none credW).email = ePropsW.email
     ∧ providerCredOf (googleCallbackCompletedProps "gmail" (some ePropsW) none credW) "gmail"
         = some credW.accessToken
     ∧ (∀ x ∈ ePropsW.connectedIntegrations,
          x ∈ (googleCallbackCompletedProps "gmail" (some ePropsW) none credW).connectedIntegrations)
     ∧ "gmail" ∈ (googleCallbackCompletedProps "gmail" (some ePropsW) none credW).connectedIntegrations)
    ∧ ((notionCallbackCompletedProps (some ePropsW) ntdW).login = ePropsW.login
     ∧ (notionCallbackCompletedProps (some ePropsW) ntdW).email = ePropsW.email
     ∧ (notionCallbackCompletedProps (some ePropsW) ntdW).notionAccessToken
         = some (.str ntdW.access_token)
     ∧ (∀ x ∈ ePropsW.connectedIntegrations,
          x ∈ (notionCallbackCompletedProps (some ePropsW) ntdW).connectedIntegrations)
     ∧ "notion" ∈ (notionCallbackCompletedProps (some ePropsW) ntdW).connectedIntegrations)) :=
  anchor_stability "gmail" (Or.inl rfl) ePropsW none credW ntdW

/-!
## Theorems about the token exchange
-/

/-- A nominally successful JSON token response that lacks an access
token, used for C8. -/
def respC8 : HttpResp :=
  ⟨true, 200, "application/json", some ⟨none, none, none, none, none⟩, none, "no token here"⟩

/-- Counterexample to claim C8 as stated: on a successful HTTP exchange
(status 200) whose body lacks an access token, the code fails with
status 400 — neither 500 nor the upstream's reported status — so the
error does not carry "the upstream's reported status ... or 500". -/
theorem token_exchange_missing_token_counterexample :
    respC8.ok = true
    ∧ respC8.status = 200
    ∧ fetchUpstreamAuthToken (some "code") respC8 = .error ⟨400, "Missing access token in response"⟩
    ∧ (400 : Nat) ≠ 500
    ∧ (400 : Nat) ≠ respC8.status := by
  refine ⟨rfl, rfl, rfl, by decide, by decide⟩

/-- Amended claim C8: the exchange fails — producing an error `Response`
and no credential — exactly when the code is missing/empty, the HTTP
call does not succeed, the body fails to parse, or the parsed body
lacks a nonempty access token; HTTP failure and parse failure yield
status 500 (the former embedding the upstream body), while a missing
code or missing access token yield 400. The upstream status is never
propagated. -/
theorem token_exchange_error_characterization (code : Option String) (r : HttpResp) :
    (exOk (fetchUpstreamAuthToken code r) = true
        ↔ jsTruthyO code = true ∧ r.ok = true
          ∧ ∃ td : TokenResponse, parseTokenBody r = some td ∧ jsTruthyO td.access_token = true)
    ∧ (∀ td : TokenResponse, fetchUpstreamAuthToken code r = .ok td → parseTokenBody r = some td)
    ∧ (∀ e : ErrResponse, fetchUpstreamAuthToken code r = .error e →
        e.status = 400 ∨ e.status = 500)
    ∧ (jsTruthyO code = false → fetchUpstreamAuthToken code r = .error ⟨400, "Missing code"⟩)
    ∧ (jsTruthyO code = true → r.ok = false →
        fetchUpstreamAuthToken code r
          = .error ⟨500, "Failed to fetch access token: " ++ r.textBody⟩)
    ∧ (jsTruthyO code = true → r.ok = true → parseTokenBody r = none →
        fetchUpstreamAuthToken code r = .error ⟨500, "Failed to parse token response"⟩)
    ∧ (∀ td : TokenResponse, jsTruthyO code = true → r.ok = true →
        parseTokenBody r = some td → jsTruthyO td.access_token = false →
        fetchUpstreamAuthToken code r = .error ⟨400, "Missing access token in response"⟩) := by
  cases hcode : jsTruthyO code with
  | false => simp [fetchUpstreamAuthToken, hcode, exOk]
  | true =>
    cases hok : r.ok with
    | false => simp [fetchUpstreamAuthToken, hcode, hok, exOk]
    | true =>
      cases hpb : parseTokenBody r with
      | none => simp [fetchUpstreamAuthToken, hcode, hok, hpb, exOk]
      | some td =>
        cases hat : jsTruthyO td.access_token with
        | false => simp [fetchUpstreamAuthToken, hcode, hok, hpb, hat, exOk]
        | true => simp [fetchUpstreamAuthToken, hcode, hok, hpb, hat, exOk]

/-- Witness for the amended C8: a missing code yields the 400 error. -/
theorem token_exchange_error_characterization_witness :
    fetchUpstreamAuthToken none respC8 = .error ⟨400, "Missing code"⟩ :=
  (token_exchange_error_characterization none respC8).2.2.2.1 rfl

/-- The Google token response used in the C9 evidence. -/
def tGoogleC9 : TokenResponse := ⟨some "A", some "R", none, some "Bearer", none⟩

/-- The upstream HTTP response carrying `tGoogleC9` as JSON. -/
def respGoogleC9 : HttpResp := ⟨true, 200, "application/json", some tGoogleC9, none, ""⟩

/-- JSON parser stub for the unreachable string branch of the Google
token handling (only used in the C9 evidence). -/
def jpC9 : String → TokenResponse := fun _ => ⟨none, none, none, none, none⟩

/-- Claim C9 failing input: `fetchUpstreamAuthToken` returns a parsed
`TokenResponse` object, so the handler's `typeof tokenResponse ===
"string"` guard is always false and the WHOLE object — not its
`access_token` string — is assigned to `accessToken`, while
`refreshToken` stays `undefined`; the completed bundle therefore stores
the object instead of `"A"` and drops the refresh token `"R"`. -/
theorem google_token_object_stored_as_access_token :
    fetchUpstreamAuthToken (some "code") respGoogleC9 = .ok tGoogleC9
    ∧ jsTypeofIsString (.obj tGoogleC9) = false
    ∧ googleTokenExtract jpC9 (.obj tGoogleC9) = (.obj tGoogleC9, none)
    ∧ tGoogleC9.access_token = some "A"
    ∧ tGoogleC9.refresh_token = some "R"
    ∧ (googleCallbackCompletedProps "gmail" none none
        ⟨(googleTokenExtract jpC9 (.obj tGoogleC9)).1,
         (googleTokenExtract jpC9 (.obj tGoogleC9)).2⟩).gmailAccessToken
      = some (.obj tGoogleC9)
    ∧ some (JsVal.obj tGoogleC9) ≠ some (JsVal.str "A")
    ∧ (googleCallbackCompletedProps "gmail" none none
        ⟨(googleTokenExtract jpC9 (.obj tGoogleC9)).1,
         (googleTokenExtract jpC9 (.obj tGoogleC9)).2⟩).gmailRefreshToken = none := by
  refine ⟨rfl, rfl, rfl, rfl, rfl, rfl, by decide, rfl⟩

/-!
## Theorems about the approved-clients cookie
-/

/-- HMAC stand-in used only in the C6 evidence (any keyed hash works;
this one signs everything as the single byte `0xaa`). -/
def hmC6 : String → List Nat := fun _ => [170]

/-- JSON-parse stand-in used only in the C6 evidence (never reached on
the tampered path). -/
def jpC6 : String → Option (List String) := fun _ => none

/-- Number of positions at which two equal-length strings differ. -/
def countDiffs (l1 l2 : List Char) : Nat :=
  (List.zipWith (fun a b => if a = b then 0 else 1) l1 l2).sum

/-- Claim C6 failing input: `addApprovedClient` issues the cookie value
`aa.WyJjIl0=`; flipping the single byte at index 8 (`l` to `!`) makes
the base64 payload section invalid, and `isClientApproved` THROWS the
`InvalidCharacterError` from the unguarded `atob` instead of returning
false. -/
theorem approved_cookie_tamper_throws :
    approvedCookieValue hmC6 jpC6 none "c" = .ok "aa.WyJjIl0="
    ∧ isClientApproved hmC6 jpC6 (some "aa.WyJjI!0=") "c" = .error "InvalidCharacterError"
    ∧ ("aa.WyJjI!0=").length = ("aa.WyJjIl0=").length
    ∧ countDiffs ("aa.WyJjI!0=").toList ("aa.WyJjIl0=").toList = 1 := by
  refine ⟨rfl, rfl, rfl, by decide⟩

end S2P
